import Mathlib

/-!
Shallow embedding of the campus-assistant query-resolution pipeline:
intent classification, keyword-based topic matching with homophone
expansion, topic content loading, and the prompt-assembly / fallback /
error-mapping logic around the completion endpoint
(sources: nlp_processor.py, topic_registry.py, document_loader.py, main.py).
-/

namespace Campus

/-! ### String primitives mirroring the Python string methods used -/

/-- Python `str.lower()` restricted to the basic-latin range, which is all the
source code relies on (`Char.toLower` lowers exactly A–Z). -/
def pyLower (s : String) : String := ⟨s.data.map Char.toLower⟩

/-- The whitespace characters Python `str.strip()` removes (ASCII part). -/
def isPySpace (c : Char) : Bool :=
  c = ' ' || c = '\t' || c = '\n' || c = '\r' || c = '\x0b' || c = '\x0c'

def pyStripData (l : List Char) : List Char :=
  ((l.dropWhile isPySpace).reverse.dropWhile isPySpace).reverse

/-- Python `str.strip()`. -/
def pyStrip (s : String) : String := ⟨pyStripData s.data⟩

/-- Does `n` occur as a contiguous run inside the list? -/
def containsData (n : List Char) : List Char → Bool
  | [] => n.isEmpty
  | c :: t => n.isPrefixOf (c :: t) || containsData n t

/-- Python `needle in hay` on strings. -/
def pyContains (hay needle : String) : Bool := containsData needle.data hay.data

/-- Worker for `pyReplace`, structurally recursive on a fuel bound so that it
reduces inside the kernel; the fuel never runs out when it starts at the
length of the scanned list, since every step consumes at least one element. -/
def replaceDataAux (n r : List Char) : Nat → List Char → List Char
  | _, [] => []
  | 0, l => l
  | fuel + 1, c :: t =>
    if n.isPrefixOf (c :: t) && !n.isEmpty then
      r ++ replaceDataAux n r fuel (t.drop (n.length - 1))
    else
      c :: replaceDataAux n r fuel t

/-- Python `str.replace(n, r)`: replace every non-overlapping occurrence,
scanning left to right (the empty-pattern case never arises in the source). -/
def replaceData (n r l : List Char) : List Char := replaceDataAux n r l.length l

def pyReplace (s n r : String) : String := ⟨replaceData n.data r.data s.data⟩

/-- Python `str.split(sep)` for a one-character separator. -/
def splitLinesData : List Char → List (List Char)
  | [] => [[]]
  | c :: t =>
    let r := splitLinesData t
    if c = '\n' then [] :: r else (c :: r.headD []) :: r.tail

/-- Python `content.split(chr(10))`. -/
def pySplitLines (s : String) : List String := (splitLinesData s.data).map (fun l => ⟨l⟩)

/-- Python `sep.join(parts)`. -/
def joinSep (sep : String) : List String → String
  | [] => ""
  | [x] => x
  | x :: y :: t => x ++ sep ++ joinSep sep (y :: t)

/-! ### Data model (topic_registry.py, nlp_processor.py) -/

/-- `TopicDefinition` dataclass of topic_registry.py. -/
structure TopicDefinition where
  display_name : String
  keywords : List String
  data_file : String
  description : String
  content : String := ""
deriving DecidableEq

/-- `Intent` dataclass of nlp_processor.py; confidence is modelled exactly
as a rational since the source only ever stores the literals 1.0, 0.8, 0.0. -/
structure Intent where
  name : String
  confidence : ℚ
deriving DecidableEq

/-- One `{"role": ..., "content": ...}` chat message. -/
structure Message where
  role : String
  content : String
deriving DecidableEq

/-- Topic `academic` of `TopicRegistry._initialize_topics`. -/
def topic_academic : TopicDefinition :=
  { display_name := "学术资源"
    keywords := ["图书馆", "学术支持", "学习资源", "文献", "数据库"]
    data_file := "data/topics/Academic_Resources.md"
    description := "图书馆、学术支持、学习资源等相关信息" }

/-- Topic `life_services` of `TopicRegistry._initialize_topics`. -/
def topic_life_services : TopicDefinition :=
  { display_name := "基础生活服务"
    keywords := ["宿舍", "洗衣", "水电", "维修", "保洁"]
    data_file := "data/topics/Basic_Life_Services.md"
    description := "宿舍、洗衣、水电等基础生活服务信息" }

/-- Topic `activities` of `TopicRegistry._initialize_topics`. -/
def topic_activities : TopicDefinition :=
  { display_name := "校园活动"
    keywords := ["社团", "活动", "讲座", "比赛", "晚会"]
    data_file := "data/topics/Campus_Activities_and_Events.md"
    description := "社团活动、讲座、比赛等校园活动信息" }

/-- Topic `dining` of `TopicRegistry._initialize_topics`. -/
def topic_dining : TopicDefinition :=
  { display_name := "餐饮选项"
    keywords := ["食堂", "清真食堂", "餐厅", "外卖", "美食", "营业时间"]
    data_file := "data/topics/Campus_and_Nearby_Dining_Options.md"
    description := "食堂、周边餐厅、外卖等餐饮信息" }

/-- Topic `navigation` of `TopicRegistry._initialize_topics`. -/
def topic_navigation : TopicDefinition :=
  { display_name := "校园导航"
    keywords := ["地图", "建筑", "设施", "位置", "导航"]
    data_file := "data/topics/Campus_Navigation_and_Facilities.md"
    description := "校园地图、建筑位置、设施使用等信息" }

/-- Topic `policies` of `TopicRegistry._initialize_topics`. -/
def topic_policies : TopicDefinition :=
  { display_name := "校园政策"
    keywords := ["规定", "安全", "紧急", "违纪", "申诉"]
    data_file := "data/topics/Campus_Policies_and_Safety.md"
    description := "校园规定、安全事项、紧急处理等信息" }

/-- Topic `courses` of `TopicRegistry._initialize_topics`. -/
def topic_courses : TopicDefinition :=
  { display_name := "选课指南"
    keywords := ["选课", "课程", "学分", "退选", "改选"]
    data_file := "data/topics/Course_Selection_Guide.md"
    description := "选课流程、课程评价、学分要求等信息" }

/-- Topic `contacts` of `TopicRegistry._initialize_topics`. -/
def topic_contacts : TopicDefinition :=
  { display_name := "重要联系方式"
    keywords := ["电话", "办公", "部门", "紧急", "联系"]
    data_file := "data/topics/Important_Contact_Numbers.md"
    description := "重要电话、办公部门联系方式等信息" }

/-- Topic `procedures` of `TopicRegistry._initialize_topics`. -/
def topic_procedures : TopicDefinition :=
  { display_name := "办事流程"
    keywords := ["申请", "流程", "手续", "审批", "备案"]
    data_file := "data/topics/Procedures_and_Processes.md"
    description := "各类申请流程、手续办理等信息" }

/-- Topic `transportation` of `TopicRegistry._initialize_topics`. -/
def topic_transportation : TopicDefinition :=
  { display_name := "周边交通"
    keywords := ["公交", "地铁", "校车", "共享单车", "电动车"]
    data_file := "data/topics/Surrounding_Transportation.md"
    description := "公交、地铁、共享单车等交通信息" }

/-- The hard-coded topic table of `TopicRegistry._initialize_topics`,
in source order, contents initially empty. -/
def initialize_topics : List (String × TopicDefinition) :=
  [ ("academic", topic_academic),
    ("life_services", topic_life_services),
    ("activities", topic_activities),
    ("dining", topic_dining),
    ("navigation", topic_navigation),
    ("policies", topic_policies),
    ("courses", topic_courses),
    ("contacts", topic_contacts),
    ("procedures", topic_procedures),
    ("transportation", topic_transportation) ]

/-! ### Topic registry operations -/

/-- `TopicRegistry.find_topics_by_keyword`. -/
def find_topics_by_keyword (topics : List (String × TopicDefinition))
    (keyword : String) : List String :=
  (topics.filter (fun p => p.2.keywords.any (fun kw =>
    pyContains (pyLower kw) (pyStrip (pyLower keyword))))).map (fun p => p.1)

/-- The greeting phrase set of `NLPProcessor._detect_intent`. -/
def greetingSet : List String := ["你好", "hi", "hello", "早上好", "下午好", "晚上好"]

/-- The 0.8 confidence literal of the source, given as the exact rational 4/5
in explicitly reduced form so that it evaluates inside the kernel
(the scientific-notation literal 0.8 is irreducible there);
`conf_match_eq_point_eight` below identifies the two. -/
def conf_match : ℚ := ⟨4, 5, by decide, by decide⟩

/-- `NLPProcessor._detect_intent`. -/
def detect_intent (topics : List (String × TopicDefinition)) (text : String) : Intent :=
  if greetingSet.any (fun g => pyContains (pyStrip (pyLower text)) g) then
    ⟨"GREETING", 1⟩
  else if find_topics_by_keyword topics (pyStrip (pyLower text)) ≠ [] then
    ⟨"SCHOOL_RELATED", conf_match⟩
  else
    ⟨"UNKNOWN", 0⟩

/-- The canned phrase → reply table of `NLPProcessor._handle_greeting`. -/
def greeting_responses : List (String × String) :=
  [ ("你好", "你好！我是校园助手，有什么可以帮你的吗？"),
    ("hi", "Hi! 我是校园助手，有什么可以帮你的吗？"),
    ("hello", "Hello! 我是校园助手，有什么可以帮你的吗？"),
    ("谢谢", "不客气，很高兴能帮到你！"),
    ("thanks", "You\x27re welcome! Glad to help!"),
    ("再见", "再见，祝你学习愉快！"),
    ("拜拜", "拜拜，有问题随时来找我哦~") ]

/-- The default canned reply of `NLPProcessor._handle_greeting`. -/
def default_greeting_reply : String := "你好！有什么可以帮你的吗？"

/-- `NLPProcessor._handle_greeting`: note the lookup key is `text.lower()`
with no trimming. -/
def handle_greeting (text : String) : String :=
  (greeting_responses.lookup (pyLower text)).getD default_greeting_reply

/-! ### Completion endpoint model and the retrieval pipeline
(`NLPProcessor._retrieve_info`).  A file system is modelled as a partial
map from paths to file text (`none` = missing file); the endpoint as a
function from the sent message list to an outcome. -/

/-- Outcome of `openai_client.chat.completions.create`, following the
exception classes `_retrieve_info` distinguishes. -/
inductive ApiOutcome where
  | success (text : String)
  | authError
  | connError
  | rateLimitError
  | otherOpenAIError
  | otherError
deriving DecidableEq

/-- The not-found sentinel string returned by `_retrieve_info`. -/
def not_found_msg : String := "找不到相关信息，请尝试其他查询"

/-- `TopicRegistry._load_topic_content`: overwrite content from the backing
file if it exists, otherwise leave the definition unchanged (warning only). -/
def load_doc (fs : String → Option String) (d : TopicDefinition) : TopicDefinition :=
  match fs d.data_file with
  | some txt => { d with content := txt }
  | none => d

/-- The all-topics branch of `_retrieve_info`: every topic whose content is
empty gets `_load_topic_content` applied. -/
def load_all_docs (topics : List (String × TopicDefinition))
    (fs : String → Option String) : List TopicDefinition :=
  topics.map (fun p => if p.2.content = "" then load_doc fs p.2 else p.2)

/-- Document-set resolution of `_retrieve_info` (lines 178-195): a truthy
topic string goes through `TopicRegistry.get_topic` (case-insensitive lookup,
lazy load when content is empty) followed by an unconditional explicit
`_load_topic_content`; `None` or the empty string selects all topics. -/
def resolve_docs (topics : List (String × TopicDefinition))
    (fs : String → Option String) (topic : Option String) : List TopicDefinition :=
  match topic with
  | some t =>
    if t ≠ "" then
      match topics.lookup (pyLower t) with
      | some d => [load_doc fs (if d.content = "" then load_doc fs d else d)]
      | none => []
    else load_all_docs topics fs
  | none => load_all_docs topics fs

/-- One document's block inside the prompt context. -/
def doc_block (d : TopicDefinition) : String :=
  "## " ++ d.display_name ++ "\n" ++ d.description ++ "\n" ++ d.content

/-- The context block of `_retrieve_info`: blocks joined by a blank line. -/
def context_of (docs : List TopicDefinition) : String :=
  joinSep "\n\n" (docs.map doc_block)

/-- The system prompt of `_retrieve_info` with the context spliced in
(the result of `system_prompt.format(context=context)`). -/
def system_prompt (context : String) : String :=
  "你是一个专业的校园助手，请根据以下信息回答问题：\n        \n" ++ context ++
  "\n\n回答要求:\n1. 严格遵循文档内容,若文档中找不到则返回找不到相关信息\n2. 简洁明了(3-5句话)\n3. 使用与问题相同的语言\n4. 如涉及流程，分步骤说明\n5. 结合对话历史上下文进行回答"

/-- Message list sent to the endpoint: system instruction, then the history
turns if provided (an absent or empty history adds nothing), then the
current query as a user turn. -/
def build_messages (docs : List TopicDefinition) (query : String)
    (history : Option (List Message)) : List Message :=
  ⟨"system", system_prompt (context_of docs)⟩ :: (history.getD [] ++ [⟨"user", query⟩])

/-- The deterministic fallback of `_retrieve_info` line 268:
first line of the primary document, a blank line, then lines `[1:4]`
joined by newlines. -/
def fallback_answer (docs : List TopicDefinition) : String :=
  let ls := pySplitLines (docs.headD ⟨"", [], "", "", ""⟩).content
  ls.headD "" ++ "\n\n" ++ joinSep "\n" ((ls.drop 1).take 3)

/-- The try/except tail of `_retrieve_info` (lines 257-282): the reply as a
function of the endpoint outcome — the empty / not-found-marker fallback on
success, and the fixed message for each failure kind. -/
def api_reply (docs : List TopicDefinition) (o : ApiOutcome) : String :=
  match o with
  | .success r => if r = "" || pyContains r "找不到" then fallback_answer docs else r
  | .authError => "API认证失败，请检查配置"
  | .connError => "网络连接失败，请检查网络设置"
  | .rateLimitError => "请求过于频繁，请稍后再试"
  | .otherOpenAIError => "服务暂时不可用"
  | .otherError => "服务暂时不可用"

/-- `NLPProcessor._retrieve_info`, instrumented: returns the reply together
with the message list sent to the completion endpoint (`none` when the
endpoint was never invoked). -/
def retrieve_info_core (topics : List (String × TopicDefinition))
    (fs : String → Option String) (api : List Message → ApiOutcome)
    (query : String) (topic : Option String) (history : Option (List Message)) :
    String × Option (List Message) :=
  let docs := resolve_docs topics fs topic
  if docs = [] then (not_found_msg, none)
  else if docs.any (fun d => pyStrip d.content = "") then (not_found_msg, none)
  else
    let messages := build_messages docs query history
    (api_reply docs (api messages), some messages)

/-- The reply of `NLPProcessor._retrieve_info`. -/
def retrieve_info (topics : List (String × TopicDefinition))
    (fs : String → Option String) (api : List Message → ApiOutcome)
    (query : String) (topic : Option String) (history : Option (List Message)) : String :=
  (retrieve_info_core topics fs api query topic history).1

/-- `NLPProcessor.process_query`, instrumented like `retrieve_info_core`. -/
def process_query_core (topics : List (String × TopicDefinition))
    (fs : String → Option String) (api : List Message → ApiOutcome)
    (query : String) (topic : Option String) (history : Option (List Message)) :
    String × Option (List Message) :=
  if (detect_intent topics query).name = "GREETING" then (handle_greeting query, none)
  else retrieve_info_core topics fs api query topic history

/-- The reply of `NLPProcessor.process_query`. -/
def process_query (topics : List (String × TopicDefinition))
    (fs : String → Option String) (api : List Message → ApiOutcome)
    (query : String) (topic : Option String) (history : Option (List Message)) : String :=
  (process_query_core topics fs api query topic history).1

/-- The history window computed in `CampusAssistant.handle_query`:
`list(self.message_history[-10:]) if self.message_history else None`. -/
def history_window (mh : List Message) : Option (List Message) :=
  if mh = [] then none else some (mh.drop (mh.length - 10))

/-- `CampusAssistant.handle_query`, instrumented: the command branches
(topic switch, debug toggles) reply without touching the NLP pipeline;
otherwise the query goes to `process_query` with the bounded history. -/
def handle_query_core (topics : List (String × TopicDefinition))
    (fs : String → Option String) (api : List Message → ApiOutcome)
    (user_input : String) (current_topic : Option String) (mh : List Message) :
    String × Option (List Message) :=
  if pyLower user_input = "切换" ∨ pyLower user_input = "change" then
    ("请选择新的话题", none)
  else if pyContains user_input "开启调试" then ("已成功开启全局调试模式", none)
  else if pyContains user_input "关闭调试" then ("已成功关闭全局调试模式", none)
  else process_query_core topics fs api user_input current_topic (history_window mh)

/-! ### Keyword expansion (`DocumentLoader._parse_document`) -/

/-- The fixed homophone / near-synonym substitution table of
`DocumentLoader._parse_document`. -/
def homophone_map : List (String × List String) :=
  [ ("清真", ["清蒸"]),
    ("饭堂", ["食堂"]),
    ("餐厅", ["饭厅"]),
    ("选课", ["改选", "退选"]),
    ("快递", ["配送"]),
    ("社团", ["协会", "组织"]),
    ("成绩", ["分数", "绩点"]),
    ("导师", ["老师", "教授"]),
    ("论文", ["文章", "报告"]),
    ("作业", ["任务", "练习"]),
    ("讲座", ["报告会", "研讨会"]),
    ("维修", ["修理", "检修"]) ]

/-- The keyword-expansion loop of `DocumentLoader._parse_document`: each base
keyword, plus, for every table fragment contained in it, the keyword with the
fragment replaced by each variant; deduplicated (`list(set(keywords))`). -/
def expand_keywords (base : List String) : List String :=
  (base.flatMap (fun kw =>
    kw :: homophone_map.flatMap (fun p =>
      if pyContains kw p.1 then p.2.map (fun v => pyReplace kw p.1 v) else []))).dedup

/-! ### Stateful `TopicRegistry.get_topic` with read instrumentation -/

/-- `TopicRegistry._load_topic_content`, counting file reads: a read happens
exactly when the backing file exists. -/
def load_topic_content_step (fs : String → Option String) (d : TopicDefinition) :
    TopicDefinition × Nat :=
  match fs d.data_file with
  | some txt => ({ d with content := txt }, 1)
  | none => (d, 0)

/-- `TopicRegistry.get_topic` as a state transformer on the topics table:
case-insensitive lookup, then `_load_topic_content` exactly when the stored
content is empty.  Returns (result, new table, number of file reads). -/
def get_topic_step (topics : List (String × TopicDefinition))
    (fs : String → Option String) (topic_id : String) :
    Option TopicDefinition × List (String × TopicDefinition) × Nat :=
  match topics.lookup (pyLower topic_id) with
  | none => (none, topics, 0)
  | some d =>
    if d.content = "" then
      let p := load_topic_content_step fs d
      (some p.1,
       topics.map (fun q => if q.1 = pyLower topic_id then (q.1, p.1) else q),
       p.2)
    else (some d, topics, 0)

/-! ### The claimed classifier (from the specification text, for claim C1) -/

/-- Modelled from the spec claim C1 wording, NOT from the source: a
non-greeting query is matched by containment of the normalized text inside
any keyword of each topic's ExpandedKeywordSet (base keywords plus homophone
variants); a match yields TOPIC_MATCH 0.8, otherwise UNKNOWN 0.0. -/
def classify_spec_nongreeting (topics : List (String × TopicDefinition))
    (text : String) : Intent :=
  if topics.any (fun p =>
      (expand_keywords p.2.keywords).any (fun kw =>
        pyContains kw (pyStrip (pyLower text)))) then
    ⟨"TOPIC_MATCH", conf_match⟩
  else
    ⟨"UNKNOWN", 0⟩

/-! ### Helper lemmas -/

theorem conf_match_eq_point_eight : conf_match = 0.8 := by
  unfold conf_match
  rw [Rat.mk'_eq_divInt, Rat.divInt_eq_div]
  norm_num

theorem pyStripData_eq (l : List Char) :
    pyStripData l = List.rdropWhile isPySpace (List.dropWhile isPySpace l) := by
  simp [pyStripData, List.rdropWhile]

theorem mem_of_mem_pyStripData {c : Char} {l : List Char} (h : c ∈ pyStripData l) : c ∈ l := by
  rw [pyStripData_eq] at h
  exact (List.dropWhile_sublist isPySpace).mem
    ((List.rdropWhile_prefix isPySpace (List.dropWhile isPySpace l)).sublist.mem h)

theorem char_toLower_fix {c : Char} (h : ¬(65 ≤ c.toNat ∧ c.toNat ≤ 90)) :
    Char.toLower c = c := by
  unfold Char.toLower
  exact if_neg (by omega)

theorem char_toLower_toNat {c : Char} (h1 : 65 ≤ c.toNat) (h2 : c.toNat ≤ 90) :
    (Char.toLower c).toNat = c.toNat + 32 := by
  have aux : ∀ n : Nat, 65 ≤ n → n ≤ 90 → (Char.ofNat (n + 32)).toNat = n + 32 := by
    intro n hn1 hn2
    interval_cases n <;> decide
  unfold Char.toLower
  rw [if_pos (by omega)]
  exact aux c.toNat h1 h2

theorem char_toLower_idem (c : Char) : Char.toLower (Char.toLower c) = Char.toLower c := by
  by_cases h : 65 ≤ c.toNat ∧ c.toNat ≤ 90
  · apply char_toLower_fix
    rw [char_toLower_toNat h.1 h.2]
    omega
  · rw [char_toLower_fix h, char_toLower_fix h]

theorem dropWhile_eq_self_of_headOpt {p : α → Bool} {l : List α}
    (h : ∀ c, l.head? = some c → p c = false) : List.dropWhile p l = l := by
  cases l with
  | nil => rfl
  | cons c t =>
    rw [List.dropWhile_cons, if_neg]
    simp [h c rfl]

theorem headOpt_dropWhile_false {p : α → Bool} {l : List α} {c : α}
    (h : (List.dropWhile p l).head? = some c) : p c = false := by
  have := List.head?_dropWhile_not p l
  rw [h] at this
  exact this

theorem pyStripData_idem (l : List Char) : pyStripData (pyStripData l) = pyStripData l := by
  rw [pyStripData_eq, pyStripData_eq]
  set m := List.dropWhile isPySpace l with hm
  have hFm : List.dropWhile isPySpace m = m := List.dropWhile_idempotent isPySpace l
  have hFR : List.dropWhile isPySpace (List.rdropWhile isPySpace m) =
      List.rdropWhile isPySpace m := by
    apply dropWhile_eq_self_of_headOpt
    intro c hc
    obtain ⟨t, ht⟩ := List.rdropWhile_prefix isPySpace m
    have hmh : m.head? = some c := by
      rw [← ht, List.head?_append, hc]
      rfl
    apply headOpt_dropWhile_false (p := isPySpace) (l := m)
    rw [hFm]
    exact hmh
  rw [hFR, List.rdropWhile_idempotent]

theorem string_data_ext {a b : String} (h : a.data = b.data) : a = b := String.ext h

theorem pyLower_normalize_fix (s : String) :
    pyLower (pyStrip (pyLower s)) = pyStrip (pyLower s) := by
  apply string_data_ext
  show (pyStripData (s.data.map Char.toLower)).map Char.toLower =
    pyStripData (s.data.map Char.toLower)
  have hfix : ∀ c ∈ pyStripData (s.data.map Char.toLower), Char.toLower c = c := by
    intro c hc
    obtain ⟨a, _, rfl⟩ := List.mem_map.mp (mem_of_mem_pyStripData hc)
    exact char_toLower_idem a
  calc (pyStripData (s.data.map Char.toLower)).map Char.toLower
      = (pyStripData (s.data.map Char.toLower)).map id := List.map_congr_left hfix
    _ = _ := List.map_id _

theorem normalize_idem (s : String) :
    pyStrip (pyLower (pyStrip (pyLower s))) = pyStrip (pyLower s) := by
  rw [pyLower_normalize_fix]
  apply string_data_ext
  exact pyStripData_idem _

theorem char_toLower_of_space {c : Char} (h : isPySpace c = true) : Char.toLower c = c := by
  apply char_toLower_fix
  simp only [isPySpace, Bool.or_eq_true, decide_eq_true_eq] at h
  have hn : c.toNat = 32 ∨ c.toNat = 9 ∨ c.toNat = 10 ∨ c.toNat = 13 ∨
      c.toNat = 11 ∨ c.toNat = 12 := by
    rcases h with ((((h | h) | h) | h) | h) | h <;> subst h <;> decide
  omega

theorem normalize_of_whitespace {s : String} (h : ∀ c ∈ s.data, isPySpace c = true) :
    pyStrip (pyLower s) = "" := by
  apply string_data_ext
  show pyStripData (s.data.map Char.toLower) = []
  have hmap : s.data.map Char.toLower = s.data := by
    calc s.data.map Char.toLower
        = s.data.map id := List.map_congr_left (fun c hc => char_toLower_of_space (h c hc))
      _ = s.data := List.map_id _
  rw [hmap, pyStripData_eq, List.dropWhile_eq_nil_iff.mpr h, List.rdropWhile_nil]

/-! ### Claim theorems -/

/-- Claim C1, counterexample: the query 清蒸食堂 is not a greeting and is
contained in a keyword of the dining topic's expanded keyword set (namely in
the homophone variant 清蒸食堂 of the base keyword 清真食堂), so the claim
predicts a topic match with confidence 0.8; but the code's classifier, which
only consults the base keyword lists, returns UNKNOWN with confidence 0.0. -/
theorem C1_counterexample :
    greetingSet.any (fun g => pyContains (pyStrip (pyLower "清蒸食堂")) g) = false ∧
    "清蒸食堂" ∈ expand_keywords topic_dining.keywords ∧
    classify_spec_nongreeting initialize_topics "清蒸食堂" = ⟨"TOPIC_MATCH", conf_match⟩ ∧
    detect_intent initialize_topics "清蒸食堂" = ⟨"UNKNOWN", 0⟩ := by
  refine ⟨by decide, by decide, by decide, by decide⟩

/-- Claim C1 (amended): for every query that is not classified as a greeting,
intent classification checks whether the normalized (lowercased, trimmed)
query text occurs as a substring inside any keyword of each topic's BASE
keyword list (lowercased) — not the homophone-expanded set; if at least one
topic matches, classify returns the topic-match intent (SCHOOL_RELATED) with
confidence 0.8, otherwise UNKNOWN with confidence 0.0. -/
theorem C1_theorem (topics : List (String × TopicDefinition)) (text : String)
    (hng : ∀ g ∈ greetingSet, pyContains (pyStrip (pyLower text)) g = false) :
    detect_intent topics text =
      if topics.any (fun p => p.2.keywords.any (fun kw =>
          pyContains (pyLower kw) (pyStrip (pyLower text)))) then
        ⟨"SCHOOL_RELATED", conf_match⟩
      else
        ⟨"UNKNOWN", 0⟩ := by
  have hg : greetingSet.any (fun g => pyContains (pyStrip (pyLower text)) g) = false :=
    List.any_eq_false.mpr (fun g hgm => by simp [hng g hgm])
  unfold detect_intent find_topics_by_keyword
  rw [hg]
  rw [normalize_idem]
  have key : ((topics.filter (fun p => p.2.keywords.any (fun kw =>
      pyContains (pyLower kw) (pyStrip (pyLower text))))).map (fun p => p.1) ≠ []) ↔
      topics.any (fun p => p.2.keywords.any (fun kw =>
        pyContains (pyLower kw) (pyStrip (pyLower text)))) = true := by
    rw [List.any_eq_true]
    constructor
    · intro h
      obtain ⟨q, hq⟩ := List.exists_mem_of_ne_nil _ h
      obtain ⟨p, hpf, hpq⟩ := List.mem_map.mp hq
      exact ⟨p, (List.mem_filter.mp hpf).1, (List.mem_filter.mp hpf).2⟩
    · rintro ⟨p, hp, hpred⟩
      exact List.ne_nil_of_mem (List.mem_map_of_mem _ (List.mem_filter.mpr ⟨hp, hpred⟩))
  simp only [Bool.false_eq_true, if_false]
  exact if_congr key rfl rfl

/-- Claim C1, witness: a plain on-topic query is classified through the base
keyword containment rule. -/
theorem C1_witness : detect_intent initialize_topics "图书馆" = ⟨"SCHOOL_RELATED", conf_match⟩ := by
  rw [C1_theorem initialize_topics "图书馆" (by decide)]
  decide

/-- Claim C6, counterexample: the query with surrounding spaces around 你好 is
classified as a greeting, and its lowercased-and-trimmed normal form 你好 is
an exact key of the reply table; yet the code returns the default canned
reply, because the actual lookup key is only lowercased, never trimmed. -/
theorem C6_counterexample :
    (detect_intent initialize_topics " 你好 ").name = "GREETING" ∧
    greeting_responses.lookup (pyStrip (pyLower " 你好 ")) =
      some "你好！我是校园助手，有什么可以帮你的吗？" ∧
    process_query initialize_topics (fun _ => none) (fun _ => ApiOutcome.success "") " 你好 "
      none none = default_greeting_reply ∧
    default_greeting_reply ≠ "你好！我是校园助手，有什么可以帮你的吗？" := by
  refine ⟨by decide, by decide, by decide, by decide⟩

/-- Claim C6 (amended): for every query classified as GREETING, the reply is
looked up by the query's lowercased — but NOT trimmed — text in the fixed
phrase-to-reply table, with the fixed default canned reply when that
lowercased text is not an exact table key. -/
theorem C6_theorem (topics : List (String × TopicDefinition))
    (fs : String → Option String) (api : List Message → ApiOutcome)
    (topic : Option String) (history : Option (List Message)) (q : String)
    (hg : (detect_intent topics q).name = "GREETING") :
    process_query topics fs api q topic history =
      (greeting_responses.lookup (pyLower q)).getD default_greeting_reply := by
  unfold process_query process_query_core
  rw [if_pos hg]
  rfl

/-- Claim C6, witness: a query that passes the containment-based greeting
classification but is not an exact table key gets the default reply. -/
theorem C6_witness :
    process_query initialize_topics (fun _ => none) (fun _ => ApiOutcome.success "")
      "HELLO there" none none = default_greeting_reply := by
  rw [C6_theorem initialize_topics (fun _ => none) (fun _ => ApiOutcome.success "")
    none none "HELLO there" (by decide)]
  decide

/-- Claim C8: the expanded keyword set contains every base keyword, and for
each base keyword containing an original fragment of the substitution table
it contains the keyword with the fragment replaced by each variant; in
particular expanding the singleton 清真食堂 yields both 清真食堂 and 清蒸食堂
and has size at least 2. -/
theorem C8_theorem (base : List String) :
    (∀ kw ∈ base, kw ∈ expand_keywords base) ∧
    (∀ kw ∈ base, ∀ ov ∈ homophone_map, pyContains kw ov.1 = true →
      ∀ v ∈ ov.2, pyReplace kw ov.1 v ∈ expand_keywords base) ∧
    "清真食堂" ∈ expand_keywords ["清真食堂"] ∧
    "清蒸食堂" ∈ expand_keywords ["清真食堂"] ∧
    2 ≤ (expand_keywords ["清真食堂"]).length := by
  refine ⟨?_, ?_, by decide, by decide, by decide⟩
  · intro kw hkw
    unfold expand_keywords
    apply List.mem_dedup.mpr
    exact List.mem_flatMap.mpr ⟨kw, hkw, List.mem_cons_self _ _⟩
  · intro kw hkw ov hov hcont v hv
    unfold expand_keywords
    apply List.mem_dedup.mpr
    refine List.mem_flatMap.mpr ⟨kw, hkw, List.mem_cons_of_mem _ ?_⟩
    refine List.mem_flatMap.mpr ⟨ov, hov, ?_⟩
    rw [if_pos hcont]
    exact List.mem_map_of_mem _ hv

/-- Claim C8, witness: the substitution 清真 → 清蒸 applied to the base
keyword 清真食堂 is in the expanded set. -/
theorem C8_witness : pyReplace "清真食堂" "清真" "清蒸" ∈ expand_keywords ["清真食堂"] := by
  have h := C8_theorem ["清真食堂"]
  exact h.2.1 "清真食堂" (by decide) ("清真", ["清蒸"]) (by decide) (by decide) "清蒸" (by decide)

/-- Claim C9, counterexample: when the dining topic's backing file exists but
is empty, the first `get_topic` loads it successfully (one file read) and
stores empty content; a second `get_topic` on the resulting state performs
another file read (count 1, not 0), because the code tests loadedness by
content truthiness. -/
theorem C9_counterexample :
    (fun path => if path = "data/topics/Campus_and_Nearby_Dining_Options.md" then
        some "" else none) topic_dining.data_file = some "" ∧
    (get_topic_step initialize_topics
      (fun path => if path = "data/topics/Campus_and_Nearby_Dining_Options.md" then
        some "" else none) "dining").2.2 = 1 ∧
    (get_topic_step
      (get_topic_step initialize_topics
        (fun path => if path = "data/topics/Campus_and_Nearby_Dining_Options.md" then
          some "" else none) "dining").2.1
      (fun path => if path = "data/topics/Campus_and_Nearby_Dining_Options.md" then
        some "" else none) "dining").2.2 = 1 := by
  refine ⟨by decide, by decide, by decide⟩

/-- Claim C9 (amended): for every topic whose stored content is non-empty
(the only loadedness signal the code has), `get_topic` performs no file read,
leaves the registry unchanged, and a repeated call returns identical content. -/
theorem C9_theorem (topics : List (String × TopicDefinition))
    (fs : String → Option String) (id : String) (d : TopicDefinition)
    (hl : topics.lookup (pyLower id) = some d) (hc : ¬ d.content = "") :
    get_topic_step topics fs id = (some d, topics, 0) ∧
    get_topic_step (get_topic_step topics fs id).2.1 fs id = (some d, topics, 0) := by
  have h1 : get_topic_step topics fs id = (some d, topics, 0) := by
    simp [get_topic_step, hl, hc]
  exact ⟨h1, by rw [h1]; exact h1⟩

/-- Claim C9, witness: a topic whose content is already non-empty is returned
twice identically with zero reads (case-insensitive id lookup included). -/
theorem C9_witness :
    get_topic_step [("dining", { topic_dining with content := "菜单" })] (fun _ => none)
        "DINING" =
      (some { topic_dining with content := "菜单" },
        [("dining", { topic_dining with content := "菜单" })], 0) ∧
    get_topic_step
        (get_topic_step [("dining", { topic_dining with content := "菜单" })] (fun _ => none)
          "DINING").2.1 (fun _ => none) "DINING" =
      (some { topic_dining with content := "菜单" },
        [("dining", { topic_dining with content := "菜单" })], 0) :=
  C9_theorem [("dining", { topic_dining with content := "菜单" })] (fun _ => none) "DINING"
    { topic_dining with content := "菜单" } (by decide) (by decide)

/-- Claim C10: the empty query and every whitespace-only query normalize to
the empty string, which is contained in every keyword, so classification
returns the topic-match intent (SCHOOL_RELATED) with confidence 0.8 — not
UNKNOWN — and every topic of the catalog is reported as matching. -/
theorem C10_theorem (q : String) (hws : ∀ c ∈ q.data, isPySpace c = true) :
    detect_intent initialize_topics q = ⟨"SCHOOL_RELATED", conf_match⟩ ∧
    find_topics_by_keyword initialize_topics (pyStrip (pyLower q)) =
      initialize_topics.map (fun p => p.1) := by
  have hn : pyStrip (pyLower q) = "" := normalize_of_whitespace hws
  constructor
  · unfold detect_intent
    rw [hn]
    decide
  · rw [hn]
    decide

/-- Claim C10, witness: a whitespace-only query is classified SCHOOL_RELATED
with confidence 0.8 and matches all ten topics. -/
theorem C10_witness :
    detect_intent initialize_topics " \t " = ⟨"SCHOOL_RELATED", conf_match⟩ ∧
    find_topics_by_keyword initialize_topics (pyStrip (pyLower " \t ")) =
      initialize_topics.map (fun p => p.1) :=
  C10_theorem " \t " (by decide)

/-- Whenever the endpoint was invoked, the resolved document set was non-empty
with no blank document, the sent message list is the built one, and the reply
is `api_reply` of the outcome at that message list. -/
theorem retrieve_core_called (topics : List (String × TopicDefinition))
    (fs : String → Option String) (api : List Message → ApiOutcome)
    (query : String) (topic : Option String) (history : Option (List Message))
    (msgs : List Message)
    (h : (retrieve_info_core topics fs api query topic history).2 = some msgs) :
    resolve_docs topics fs topic ≠ [] ∧
    (resolve_docs topics fs topic).any (fun d => pyStrip d.content = "") = false ∧
    msgs = build_messages (resolve_docs topics fs topic) query history ∧
    retrieve_info topics fs api query topic history =
      api_reply (resolve_docs topics fs topic) (api msgs) := by
  by_cases h1 : resolve_docs topics fs topic = []
  · simp [retrieve_info_core, h1] at h
  · by_cases h2p : (resolve_docs topics fs topic).any (fun d => pyStrip d.content = "") = true
    · simp [retrieve_info_core, h1, h2p] at h
    · have h2 : (resolve_docs topics fs topic).any (fun d => pyStrip d.content = "") = false := by
        revert h2p
        cases (resolve_docs topics fs topic).any (fun d => pyStrip d.content = "") <;> simp
      have hm : msgs = build_messages (resolve_docs topics fs topic) query history := by
        simp only [retrieve_info_core] at h
        rw [if_neg h1, if_neg (by simp [h2])] at h
        simpa using h.symm
      refine ⟨h1, h2, hm, ?_⟩
      unfold retrieve_info
      simp only [retrieve_info_core]
      rw [if_neg h1, if_neg (by simp [h2])]
      rw [hm]

/-- Claim C2: whenever the primary resolved document's content splits into
lines l1, l2, l3, l4, ... and the endpoint returns empty text or text
containing the not-found marker 找不到, the reply is the first line, a blank
line, then the next three lines joined by newlines; in particular content
Line1..Line5 yields exactly Line1, blank line, Line2-Line4. -/
theorem C2_theorem (topics : List (String × TopicDefinition))
    (fs : String → Option String) (api : List Message → ApiOutcome)
    (query : String) (topic : Option String) (history : Option (List Message))
    (r l1 l2 l3 l4 : String) (ls : List String)
    (hdocs : resolve_docs topics fs topic ≠ [])
    (hblank : (resolve_docs topics fs topic).any (fun d => pyStrip d.content = "") = false)
    (hlines : pySplitLines ((resolve_docs topics fs topic).headD
      ⟨"", [], "", "", ""⟩).content = l1 :: l2 :: l3 :: l4 :: ls)
    (hapi : api (build_messages (resolve_docs topics fs topic) query history) =
      ApiOutcome.success r)
    (hr : r = "" ∨ pyContains r "找不到" = true) :
    retrieve_info topics fs api query topic history =
      l1 ++ "\n\n" ++ l2 ++ "\n" ++ l3 ++ "\n" ++ l4 := by
  have hcond : (decide (r = "") || pyContains r "找不到") = true := by
    rcases hr with h | h <;> simp [h]
  unfold retrieve_info
  simp only [retrieve_info_core]
  rw [if_neg hdocs, if_neg (by simp [hblank])]
  show api_reply (resolve_docs topics fs topic)
    (api (build_messages (resolve_docs topics fs topic) query history)) = _
  rw [hapi]
  simp only [api_reply]
  rw [if_pos hcond]
  simp only [fallback_answer]
  rw [hlines]
  simp [joinSep, String.append_assoc]

/-- Claim C2, witness: the specification's concrete scenario — a dining topic
whose document is Line1..Line5 and an endpoint mocked to return the empty
string gives exactly the four-line fallback text. -/
theorem C2_witness :
    retrieve_info
      [("dining", { topic_dining with content := "Line1\nLine2\nLine3\nLine4\nLine5" })]
      (fun _ => none) (fun _ => ApiOutcome.success "") "附近有什么好吃的" (some "dining")
      none = "Line1\n\nLine2\nLine3\nLine4" := by
  have h := C2_theorem
    [("dining", { topic_dining with content := "Line1\nLine2\nLine3\nLine4\nLine5" })]
    (fun _ => none) (fun _ => ApiOutcome.success "") "附近有什么好吃的" (some "dining") none
    "" "Line1" "Line2" "Line3" "Line4" ["Line5"]
    (by decide) (by decide) (by decide) (by decide) (Or.inl rfl)
  rw [h]
  decide

/-- Claim C3: when the completion endpoint fails, the reply is the fixed
message of the failure kind — authentication, connectivity, rate-limit, and
the generic one for any other failure (openai-internal or not); the model is
total, so the resolver always returns a string. -/
theorem C3_theorem (topics : List (String × TopicDefinition))
    (fs : String → Option String) (api : List Message → ApiOutcome)
    (query : String) (topic : Option String) (history : Option (List Message))
    (msgs : List Message)
    (hcall : (retrieve_info_core topics fs api query topic history).2 = some msgs) :
    (api msgs = ApiOutcome.authError →
      retrieve_info topics fs api query topic history = "API认证失败，请检查配置") ∧
    (api msgs = ApiOutcome.connError →
      retrieve_info topics fs api query topic history = "网络连接失败，请检查网络设置") ∧
    (api msgs = ApiOutcome.rateLimitError →
      retrieve_info topics fs api query topic history = "请求过于频繁，请稍后再试") ∧
    (api msgs = ApiOutcome.otherOpenAIError →
      retrieve_info topics fs api query topic history = "服务暂时不可用") ∧
    (api msgs = ApiOutcome.otherError →
      retrieve_info topics fs api query topic history = "服务暂时不可用") := by
  obtain ⟨h1, h2, hm, hres⟩ := retrieve_core_called topics fs api query topic history msgs hcall
  refine ⟨?_, ?_, ?_, ?_, ?_⟩ <;> intro he <;> rw [hres, he] <;> rfl

set_option maxRecDepth 16384 in
/-- Claim C3, witness: an authentication failure maps to the fixed
authentication message. -/
theorem C3_witness :
    retrieve_info [("dining", topic_dining)] (fun _ => some "菜单信息")
      (fun _ => ApiOutcome.authError) "食堂几点开门" none none = "API认证失败，请检查配置" := by
  have h := C3_theorem [("dining", topic_dining)] (fun _ => some "菜单信息")
    (fun _ => ApiOutcome.authError) "食堂几点开门" none none
    (build_messages (resolve_docs [("dining", topic_dining)] (fun _ => some "菜单信息") none)
      "食堂几点开门" none)
    (by decide)
  exact h.1 rfl

/-- Claim C4: if any resolved document's content is empty after trimming,
the reply is the not-found sentinel and the completion endpoint is never
invoked (the instrumented call trace is `none`), for every endpoint. -/
theorem C4_theorem (topics : List (String × TopicDefinition))
    (fs : String → Option String) (api : List Message → ApiOutcome)
    (query : String) (topic : Option String) (history : Option (List Message))
    (d : TopicDefinition)
    (hd : d ∈ resolve_docs topics fs topic) (hb : pyStrip d.content = "") :
    retrieve_info_core topics fs api query topic history = (not_found_msg, none) := by
  have h1 : resolve_docs topics fs topic ≠ [] := List.ne_nil_of_mem hd
  have h2 : (resolve_docs topics fs topic).any (fun x => pyStrip x.content = "") = true :=
    List.any_eq_true.mpr ⟨d, hd, by simp [hb]⟩
  simp [retrieve_info_core, h1, h2]

/-- Claim C4, witness: in an all-topics query where only the academic topic's
file is missing (so its content stays empty), the single blank topic
invalidates the whole retrieval. -/
theorem C4_witness :
    retrieve_info_core initialize_topics
      (fun p => if p = "data/topics/Academic_Resources.md" then none else some "有内容")
      (fun _ => ApiOutcome.success "好的") "校园里有什么" none none =
      (not_found_msg, none) :=
  C4_theorem initialize_topics
    (fun p => if p = "data/topics/Academic_Resources.md" then none else some "有内容")
    (fun _ => ApiOutcome.success "好的") "校园里有什么" none none
    topic_academic (by decide) (by decide)

/-- Claim C5, counterexample: the empty string is a topic id that is not
present in the catalog, yet the code treats it as absent (Python truthiness),
resolves ALL topics instead of an empty set, and — with loaded contents and a
working endpoint — returns the endpoint text, not the not-found sentinel. -/
theorem C5_counterexample :
    initialize_topics.lookup "" = none ∧
    resolve_docs initialize_topics (fun _ => some "校园信息") (some "") ≠ [] ∧
    retrieve_info initialize_topics (fun _ => some "校园信息")
      (fun _ => ApiOutcome.success "好的") "随便问问" (some "") none = "好的" ∧
    ¬ ("好的" = not_found_msg) := by
  refine ⟨by decide, by decide, by decide, by decide⟩

/-- Claim C5 (amended): for every NON-EMPTY topic id whose lowercased form is
not a key of the catalog, the document set resolves empty and the reply is
the fixed not-found sentinel, with the endpoint never invoked — never an
exception (the model is total). -/
theorem C5_theorem (topics : List (String × TopicDefinition))
    (fs : String → Option String) (api : List Message → ApiOutcome)
    (query : String) (history : Option (List Message)) (t : String)
    (ht : ¬ t = "") (hlook : topics.lookup (pyLower t) = none) :
    resolve_docs topics fs (some t) = [] ∧
    retrieve_info_core topics fs api query (some t) history = (not_found_msg, none) := by
  have hdocs : resolve_docs topics fs (some t) = [] := by
    simp [resolve_docs, ht, hlook]
  exact ⟨hdocs, by simp [retrieve_info_core, hdocs]⟩

/-- Claim C5, witness: an unknown (non-empty) topic id yields the sentinel. -/
theorem C5_witness :
    resolve_docs initialize_topics (fun _ => some "校园信息") (some "no_such_topic") = [] ∧
    retrieve_info_core initialize_topics (fun _ => some "校园信息")
      (fun _ => ApiOutcome.success "好的") "随便问问" (some "no_such_topic") none =
      (not_found_msg, none) :=
  C5_theorem initialize_topics (fun _ => some "校园信息") (fun _ => ApiOutcome.success "好的")
    "随便问问" none "no_such_topic" (by decide) (by decide)

/-- Claim C7: whenever a query with session history longer than 10 turns
reaches the completion endpoint, the sent message list is exactly the system
instruction, then the most recent 10 turns in their original order (a suffix
of the history), then the current query as a user message. -/
theorem C7_theorem (topics : List (String × TopicDefinition))
    (fs : String → Option String) (api : List Message → ApiOutcome)
    (input : String) (cur : Option String) (mh : List Message) (msgs : List Message)
    (hlen : 10 < mh.length)
    (hcall : (handle_query_core topics fs api input cur mh).2 = some msgs) :
    msgs = Message.mk "system" (system_prompt (context_of (resolve_docs topics fs cur))) ::
        (mh.drop (mh.length - 10) ++ [Message.mk "user" input]) ∧
    (mh.drop (mh.length - 10)).length = 10 ∧
    mh.drop (mh.length - 10) <:+ mh := by
  have hmh : ¬ mh = [] := by
    intro h
    rw [h] at hlen
    simp at hlen
  have hw : history_window mh = some (mh.drop (mh.length - 10)) := by
    simp [history_window, hmh]
  refine ⟨?_, by rw [List.length_drop]; omega, List.drop_suffix _ _⟩
  unfold handle_query_core at hcall
  by_cases hc1 : pyLower input = "切换" ∨ pyLower input = "change"
  · rw [if_pos hc1] at hcall
    simp at hcall
  rw [if_neg hc1] at hcall
  by_cases hc2 : pyContains input "开启调试" = true
  · rw [if_pos hc2] at hcall
    simp at hcall
  rw [if_neg hc2] at hcall
  by_cases hc3 : pyContains input "关闭调试" = true
  · rw [if_pos hc3] at hcall
    simp at hcall
  rw [if_neg hc3] at hcall
  unfold process_query_core at hcall
  by_cases hg : (detect_intent topics input).name = "GREETING"
  · rw [if_pos hg] at hcall
    simp at hcall
  rw [if_neg hg] at hcall
  obtain ⟨h1, h2, hm, hres⟩ :=
    retrieve_core_called topics fs api input cur (history_window mh) msgs hcall
  rw [hm, hw]
  rfl

set_option maxRecDepth 16384 in
/-- Claim C7, witness: with an 11-turn history, exactly the last 10 turns (a
10-element suffix) are forwarded between the system and user messages. -/
theorem C7_witness :
    ((List.replicate 11 (Message.mk "user" "上一条")).drop
        ((List.replicate 11 (Message.mk "user" "上一条")).length - 10)).length = 10 ∧
    (List.replicate 11 (Message.mk "user" "上一条")).drop
        ((List.replicate 11 (Message.mk "user" "上一条")).length - 10) <:+
      List.replicate 11 (Message.mk "user" "上一条") := by
  have h := C7_theorem [("dining", { topic_dining with content := "菜单" })] (fun _ => none)
    (fun _ => ApiOutcome.success "答复") "食堂" (some "dining")
    (List.replicate 11 (Message.mk "user" "上一条"))
    (Message.mk "system" (system_prompt (context_of (resolve_docs
        [("dining", { topic_dining with content := "菜单" })] (fun _ => none)
        (some "dining")))) ::
      ((List.replicate 11 (Message.mk "user" "上一条")).drop 1 ++ [Message.mk "user" "食堂"]))
    (by decide) (by decide)
  exact ⟨h.2.1, h.2.2⟩

end Campus
